import Mathlib

/-!
Verification of the outbound delivery core of the `zowe-chat-staging`
common-bot middleware (`src/plugins/msteams/MsteamsMiddleware.ts`).

The embedding models `MsteamsMiddleware.send` (message composition,
mention resolution, conversational vs. proactive routing) and
`MsteamsMiddleware.processTurnError` as pure functions.  Transport
operations (`continueConversation`, `createConversation`) are modelled
by an explicit behaviour oracle saying which calls fail, and the calls
actually issued are collected in an event trace.  The
`BotActivityHandler` collaborator (channel directory and cached
service-URL map) is not part of the sources; it is modelled from the
specification (sections 4.1 and 4.2).
-/

namespace ZoweChat

/-- Channel reference `{id, name}` (spec section 3, `ChannelRef`). -/
structure ChannelRef where
  id : String
  name : String
deriving DecidableEq, Repr

/-- One mention attached to an outbound message; the source reads and
writes `mention.mentioned.id` / `mention.mentioned.name`
(MsteamsMiddleware.ts lines 131-151). -/
structure Mention where
  mentioned : ChannelRef
deriving DecidableEq, Repr

/-- The message types `send` distinguishes (lines 120-127):
`PLAIN_TEXT`, `MSTEAMS_ADAPTIVE_CARD`, and everything else
(the unsupported fallback branch), tagged by its type string. -/
inductive MessageType where
  | plainText
  | msteamsAdaptiveCard
  | other (tag : String)
deriving DecidableEq, Repr

/-- An element of the `messages` array passed to `send`.  `message` is
the opaque payload (the text for `plainText`, the card body for
`msteamsAdaptiveCard`). -/
structure IMessage where
  type : MessageType
  message : String
  mentions : List Mention
deriving DecidableEq, Repr

/-- Models JSON.stringify of the opaque message payload (line 126).
The payload is opaque to the middleware, so its serialization is
represented by the payload string itself. -/
def serializePayload (payload : String) : String := payload

/-- Platform attachment (botbuilder `Attachment`), identified by the
card payload it wraps. -/
structure Attachment where
  content : String
deriving DecidableEq, Repr

/-- Models `CardFactory.adaptiveCard` (line 123): wraps the opaque card
payload into an attachment. -/
def adaptiveCard (payload : String) : Attachment := ⟨payload⟩

/-- Modelled from the spec: the `BotActivityHandler` collaborator is
not under `src/`; sections 4.1-4.2 describe its two caches.  `channels`
is the Channel Directory, kept most-recently-recorded first;
`serviceUrls` is the Delivery Endpoint Cache mapping channel id to
endpoint URL. -/
structure BotActivityHandler where
  channels : List ChannelRef
  serviceUrls : List (String × String)
deriving DecidableEq, Repr

/-- Modelled from the spec: `findChannelByName` (section 4.1
`findByName`) — lookup by exact name, returning the most recently
recorded match, absence as a normal outcome (`null` in the source,
`none` here). -/
def findChannelByName (h : BotActivityHandler) (name : String) : Option ChannelRef :=
  h.channels.find? fun c => c.name = name

/-- Modelled from the spec: `findChannelById` (section 4.1 `findById`). -/
def findChannelById (h : BotActivityHandler) (id : String) : Option ChannelRef :=
  h.channels.find? fun c => c.id = id

/-- Modelled from the spec: `findServiceUrl` (section 4.2 `get`) —
returns the endpoint recorded for the channel id; the caller at line
213 tests the result against `''`, so absence is the empty string. -/
def findServiceUrl (h : BotActivityHandler) (id : String) : String :=
  match h.serviceUrls.find? fun p => p.fst = id with
  | some p => p.snd
  | none => ""

/-- Modelled from the spec: `getServiceUrl().size` (line 191) — the
number of entries in the Delivery Endpoint Cache. -/
def getServiceUrlSize (h : BotActivityHandler) : Nat :=
  h.serviceUrls.length

/-- Models the JavaScript `String.prototype.trim()` used at line 133:
drops whitespace from both ends of the string. -/
def jsTrim (s : String) : String :=
  ⟨((s.data.dropWhile Char.isWhitespace).reverse.dropWhile Char.isWhitespace).reverse⟩

/-- Resolution of one mention (lines 133-145).  The source mutates the
caller's mention object in place; this function returns that object's
state after the loop body ran: if the id is blank after trimming and
the name is not, the id is filled from a name lookup (when found);
otherwise the name is filled from an id lookup (when found). -/
def resolveMention (h : BotActivityHandler) (m : Mention) : Mention :=
  if jsTrim m.mentioned.id = "" ∧ jsTrim m.mentioned.name ≠ "" then
    match findChannelByName h m.mentioned.name with
    | some ci => ⟨⟨ci.id, m.mentioned.name⟩⟩
    | none => m
  else
    match findChannelById h m.mentioned.id with
    | some ci => ⟨⟨m.mentioned.id, ci.name⟩⟩
    | none => m

/-- The push condition at line 148: a resolved mention joins the
accumulated `mentions` array only when both id and name are (literally)
non-empty. -/
def includeMention (m : Mention) : Bool :=
  m.mentioned.id ≠ "" && m.mentioned.name ≠ ""

/-- The per-mention resolution rule exactly as the specification words
it (section 4.3 step 3), stated for comparison with the code's
`resolveMention`: if the id is empty and the name non-empty, fill the
id by a name lookup; if the id is set and the name empty, fill the
name by an id lookup; otherwise leave the mention unchanged. -/
def resolveMentionClaim (h : BotActivityHandler) (m : Mention) : Mention :=
  if m.mentioned.id = "" ∧ m.mentioned.name ≠ "" then
    match findChannelByName h m.mentioned.name with
    | some ci => ⟨⟨ci.id, m.mentioned.name⟩⟩
    | none => m
  else if m.mentioned.id ≠ "" ∧ m.mentioned.name = "" then
    match findChannelById h m.mentioned.id with
    | some ci => ⟨⟨m.mentioned.id, ci.name⟩⟩
    | none => m
  else
    m

/-- Accumulator state of the composition loop over `messages`
(lines 116-155).  `handler` is the `BotActivityHandler` the loop reads
from (threaded explicitly so that the absence of writes is a provable
statement); `postMessages` collects the state of the caller's message
objects after the loop, since the source fills mention ids and names
in place. -/
structure ComposeState where
  handler : BotActivityHandler
  textMessage : String
  attachments : List Attachment
  mentions : List Mention
  postMessages : List IMessage
deriving DecidableEq, Repr

/-- One iteration of the `for (const message of messages)` loop
(lines 119-155): plain text appended as `text ++ "\n" ++ part`,
adaptive cards pushed onto `attachments`, unsupported payloads
serialized onto the text; then every mention of the message is
resolved in place and pushed onto `mentions` when both id and name are
non-empty. -/
def composeStep (s : ComposeState) (msg : IMessage) : ComposeState :=
  let s1 : ComposeState :=
    match msg.type with
    | .plainText => { s with textMessage := s.textMessage ++ "\n" ++ msg.message }
    | .msteamsAdaptiveCard => { s with attachments := s.attachments ++ [adaptiveCard msg.message] }
    | .other _ => { s with textMessage := s.textMessage ++ "\n" ++ serializePayload msg.message }
  let resolved := msg.mentions.map (resolveMention s1.handler)
  { s1 with
    mentions := s1.mentions ++ resolved.filter includeMention
    postMessages := s1.postMessages ++ [{ msg with mentions := resolved }] }

/-- The whole composition loop, started from the empty accumulators of
lines 116-118. -/
def composeLoop (h : BotActivityHandler) (msgs : List IMessage) : ComposeState :=
  msgs.foldl composeStep ⟨h, "", [], [], []⟩

/-- A botbuilder activity as `send` builds it: optional text, a list
of attachments, and the mention entities. -/
structure Activity where
  text : Option String := none
  attachments : List Attachment := []
  entities : List Mention := []
deriving DecidableEq, Repr

/-- The case split of lines 160-170 building the combined activity;
`none` models the `''` sentinel of the empty branch (which logs a
warning and suppresses delivery). -/
def composeActivity (t : String) (atts : List Attachment) : Option Activity :=
  if t ≠ "" ∧ atts = [] then
    some { text := some t }
  else if t = "" ∧ atts ≠ [] then
    some { attachments := atts }
  else if t ≠ "" ∧ atts ≠ [] then
    some { text := some t, attachments := atts }
  else
    none

/-- The proactive `firstActivity` of lines 226-233: the text (when
non-empty) or else the first attachment, carrying the resolved
mentions as entities; `none` when there is neither. -/
def firstActivity (t : String) (atts : List Attachment) (ms : List Mention) : Option Activity :=
  if t ≠ "" then
    some { text := some t, entities := ms }
  else
    match atts with
    | a :: _ => some { attachments := [a], entities := ms }
    | [] => none

/-- The proactive `restActivity` of lines 256-266: all attachments
when there was text, the attachments after `shift()` when there were
at least two attachments and no text, else `null`. -/
def restActivity (t : String) (atts : List Attachment) (ms : List Mention) : Option Activity :=
  if t ≠ "" ∧ 0 < atts.length then
    some { attachments := atts, entities := ms }
  else if t = "" ∧ 1 < atts.length then
    some { attachments := atts.tail, entities := ms }
  else
    none

/-- The refusals of the proactive path (lines 190-216); each models a
`logger.error` followed by `return`. -/
inductive DeliveryRefusal where
  | endpointCacheEmpty
  | channelNotFound
  | endpointNotFound
deriving DecidableEq, Repr

/-- One transport invocation made by `send`: the awaited
`continueConversation` of the conversational path (line 184), the
awaited `createConversation` of the proactive path (line 254), or the
fire-and-forget `continueConversation` pushing the rest activity
(lines 278-280). -/
inductive TransportCall where
  | resumeTurn (turnRef : String) (activity : Activity)
  | createConversation (channel : ChannelRef) (serviceUrl : String) (activity : Option Activity)
  | resumeProactive (conversationId : String) (serviceUrl : String) (activity : Option Activity)
deriving DecidableEq, Repr

/-- Behaviour oracle for the transport collaborators: which calls
throw, and the conversation id `createConversation` returns. -/
structure TransportBehavior where
  resumeTurnFails : Bool
  createFails : Bool
  resumeProactiveFails : Bool
  newConversationId : String
deriving DecidableEq, Repr

/-- Observable effects of one `send` call. -/
structure SendEffects where
  refusal : Option DeliveryRefusal := none
  emptyWarned : Bool := false
  trace : List TransportCall := []
  detachedResumeError : Bool := false
deriving DecidableEq, Repr

/-- The inputs `send` reads from `contextData.chatToolContext`
(lines 175-176): the field itself may be null/undefined, and so may
its `context`. -/
structure ChatToolContext where
  context : Option String
deriving DecidableEq, Repr

/-- The part of `IChatContextData` that `send` reads. -/
structure IChatContextData where
  chatToolContext : Option ChatToolContext
  channel : ChannelRef
deriving DecidableEq, Repr

/-- The null checks of lines 175-176: a live turn context exists when
`chatToolContext` and `chatToolContext.context` are both set. -/
def contextOf (ctx : IChatContextData) : Option String :=
  match ctx.chatToolContext with
  | none => none
  | some tc => tc.context

/-- The channel resolution of the proactive path (lines 197-203): by
name when the target id is empty and the name is not, otherwise by id. -/
def resolveChannel (h : BotActivityHandler) (ctx : IChatContextData) : Option ChannelRef :=
  if ctx.channel.id = "" ∧ ctx.channel.name ≠ "" then
    findChannelByName h ctx.channel.name
  else
    findChannelById h ctx.channel.id

/-- The try block of `send` (lines 112-282) as a function of the
handler state, the transport behaviour, the context data and the
messages.  A `.error e` value models an exception escaping the try
block to the catch at line 283, carrying the effects produced up to
that point; `.ok e` models the try block running to completion.  The
fire-and-forget `continueConversation` of lines 278-280 is not
awaited, so its failure is recorded in `detachedResumeError` instead
of raising. -/
def sendTryBody (h : BotActivityHandler) (tb : TransportBehavior)
    (ctx : IChatContextData) (msgs : List IMessage) : Except SendEffects SendEffects :=
  let st := composeLoop h msgs
  let t := st.textMessage
  let atts := st.attachments
  let ms := st.mentions
  match composeActivity t atts with
  | none => .ok { emptyWarned := true }
  | some act =>
    match contextOf ctx with
    | some turnRef =>
      if tb.resumeTurnFails then
        .error { trace := [.resumeTurn turnRef act] }
      else
        .ok { trace := [.resumeTurn turnRef act] }
    | none =>
      if getServiceUrlSize h = 0 then
        .ok { refusal := some .endpointCacheEmpty }
      else
        match resolveChannel h ctx with
        | none => .ok { refusal := some .channelNotFound }
        | some ci =>
          let serviceUrl := findServiceUrl h ci.id
          if serviceUrl = "" then
            .ok { refusal := some .endpointNotFound }
          else
            let first := firstActivity t atts ms
            if tb.createFails then
              .error { trace := [.createConversation ci serviceUrl first] }
            else
              let rest := restActivity t atts ms
              .ok { trace := [.createConversation ci serviceUrl first,
                              .resumeProactive tb.newConversationId serviceUrl rest]
                    detachedResumeError := tb.resumeProactiveFails }

/-- Result of one `send` call: the effects, and whether the catch
block at lines 283-286 ran (logging the caught error with its stack).
`send` itself always returns normally. -/
structure SendResult where
  effects : SendEffects
  catchLogged : Bool
deriving DecidableEq, Repr

/-- The whole of `MsteamsMiddleware.send`: the try block wrapped in
the catch of lines 283-286, which logs any escaping error and
swallows it. -/
def send (h : BotActivityHandler) (tb : TransportBehavior)
    (ctx : IChatContextData) (msgs : List IMessage) : SendResult :=
  match sendTryBody h tb ctx msgs with
  | .ok e => ⟨e, false⟩
  | .error e => ⟨e, true⟩

/-- The value `send` surfaces to its caller.  The source declares
`send(...): Promise<void>`; every refusal path executes a bare
`return` (lines 194, 207, 215) and the catch swallows every error, so
the caller always receives a normal void completion and never an
error value. -/
def sendCallerOutcome (h : BotActivityHandler) (tb : TransportBehavior)
    (ctx : IChatContextData) (msgs : List IMessage) : Except DeliveryRefusal Unit :=
  match (send h tb ctx msgs).effects.refusal with
  | some _ => .ok ()
  | none => .ok ()

/-- Behaviour oracle for the two transport calls inside
`processTurnError` (lines 66-69). -/
structure TurnErrorBehavior where
  sendTraceFails : Bool
  sendActivityFails : Bool
deriving DecidableEq, Repr

/-- Observable effects of `processTurnError` (lines 55-77). -/
structure TurnErrorResult where
  errorLogged : Bool
  caughtInnerError : Bool
  apologySent : Bool
deriving DecidableEq, Repr

/-- The whole of `MsteamsMiddleware.processTurnError`: it always logs
the unhandled error and its stack (lines 60-63), then tries to send a
trace activity and an apology message; a failure of either is caught
and logged by the catch at lines 70-72, and the method always returns
normally. -/
def processTurnError (tb : TurnErrorBehavior) : TurnErrorResult :=
  if tb.sendTraceFails then
    ⟨true, true, false⟩
  else if tb.sendActivityFails then
    ⟨true, true, false⟩
  else
    ⟨true, false, true⟩

/-! Helper lemmas about the composition loop. -/

lemma composeStep_handler (s : ComposeState) (msg : IMessage) :
    (composeStep s msg).handler = s.handler := by
  rcases msg with ⟨ty, pay, mens⟩
  cases ty <;> rfl

lemma composeStep_mentions (s : ComposeState) (msg : IMessage) :
    (composeStep s msg).mentions =
      s.mentions ++ (msg.mentions.map (resolveMention s.handler)).filter includeMention := by
  rcases msg with ⟨ty, pay, mens⟩
  cases ty <;> rfl

lemma composeStep_postMessages (s : ComposeState) (msg : IMessage) :
    (composeStep s msg).postMessages =
      s.postMessages ++ [{ msg with mentions := msg.mentions.map (resolveMention s.handler) }] := by
  rcases msg with ⟨ty, pay, mens⟩
  cases ty <;> rfl

lemma composeStep_textMessage (s : ComposeState) (msg : IMessage) :
    (composeStep s msg).textMessage =
      match msg.type with
      | .plainText => s.textMessage ++ "\n" ++ msg.message
      | .msteamsAdaptiveCard => s.textMessage
      | .other _ => s.textMessage ++ "\n" ++ serializePayload msg.message := by
  rcases msg with ⟨ty, pay, mens⟩
  cases ty <;> rfl

lemma foldl_composeStep_handler :
    ∀ (msgs : List IMessage) (s : ComposeState),
      (msgs.foldl composeStep s).handler = s.handler := by
  intro msgs
  induction msgs with
  | nil => intro s; rfl
  | cons x xs ih =>
    intro s
    rw [List.foldl_cons, ih, composeStep_handler]

lemma foldl_composeStep_postMessages :
    ∀ (msgs : List IMessage) (s : ComposeState),
      (msgs.foldl composeStep s).postMessages =
        s.postMessages ++
          msgs.map (fun msg => { msg with mentions := msg.mentions.map (resolveMention s.handler) }) := by
  intro msgs
  induction msgs with
  | nil => intro s; simp
  | cons x xs ih =>
    intro s
    rw [List.foldl_cons, ih]
    simp only [composeStep_handler, composeStep_postMessages]
    simp [List.append_assoc]

lemma mem_foldl_composeStep_mentions :
    ∀ (msgs : List IMessage) (s : ComposeState) (m : Mention),
      m ∈ (msgs.foldl composeStep s).mentions → m ∈ s.mentions ∨ includeMention m = true := by
  intro msgs
  induction msgs with
  | nil => intro s m hm; exact Or.inl hm
  | cons x xs ih =>
    intro s m hm
    rw [List.foldl_cons] at hm
    rcases ih _ m hm with h1 | h1
    · rw [composeStep_mentions] at h1
      rcases List.mem_append.mp h1 with h2 | h2
      · exact Or.inl h2
      · exact Or.inr (List.of_mem_filter h2)
    · exact Or.inr h1

/-! Helper lemmas about the shape of the send try block. -/

lemma sendCallerOutcome_ok (h : BotActivityHandler) (tb : TransportBehavior)
    (ctx : IChatContextData) (msgs : List IMessage) :
    sendCallerOutcome h tb ctx msgs = .ok () := by
  unfold sendCallerOutcome
  cases (send h tb ctx msgs).effects.refusal <;> rfl

lemma sendTryBody_eq_empty (h : BotActivityHandler) (tb : TransportBehavior)
    (ctx : IChatContextData) (msgs : List IMessage)
    (hca : composeActivity (composeLoop h msgs).textMessage (composeLoop h msgs).attachments = none) :
    sendTryBody h tb ctx msgs = .ok { emptyWarned := true } := by
  unfold sendTryBody
  dsimp only
  rw [hca]

lemma sendTryBody_eq_turn (h : BotActivityHandler) (tb : TransportBehavior)
    (ctx : IChatContextData) (msgs : List IMessage) (act : Activity) (ref : String)
    (hca : composeActivity (composeLoop h msgs).textMessage (composeLoop h msgs).attachments = some act)
    (hctx : contextOf ctx = some ref) :
    sendTryBody h tb ctx msgs =
      if tb.resumeTurnFails then .error { trace := [.resumeTurn ref act] }
      else .ok { trace := [.resumeTurn ref act] } := by
  unfold sendTryBody
  dsimp only
  rw [hca, hctx]

lemma sendTryBody_eq_cacheEmpty (h : BotActivityHandler) (tb : TransportBehavior)
    (ctx : IChatContextData) (msgs : List IMessage) (act : Activity)
    (hca : composeActivity (composeLoop h msgs).textMessage (composeLoop h msgs).attachments = some act)
    (hctx : contextOf ctx = none) (h0 : getServiceUrlSize h = 0) :
    sendTryBody h tb ctx msgs = .ok { refusal := some .endpointCacheEmpty } := by
  unfold sendTryBody
  dsimp only
  rw [hca, hctx, if_pos h0]

lemma sendTryBody_eq_chanNotFound (h : BotActivityHandler) (tb : TransportBehavior)
    (ctx : IChatContextData) (msgs : List IMessage) (act : Activity)
    (hca : composeActivity (composeLoop h msgs).textMessage (composeLoop h msgs).attachments = some act)
    (hctx : contextOf ctx = none) (h0 : getServiceUrlSize h ≠ 0)
    (hch : resolveChannel h ctx = none) :
    sendTryBody h tb ctx msgs = .ok { refusal := some .channelNotFound } := by
  unfold sendTryBody
  dsimp only
  rw [hca, hctx, if_neg h0, hch]

lemma sendTryBody_eq_epNotFound (h : BotActivityHandler) (tb : TransportBehavior)
    (ctx : IChatContextData) (msgs : List IMessage) (act : Activity) (ci : ChannelRef)
    (hca : composeActivity (composeLoop h msgs).textMessage (composeLoop h msgs).attachments = some act)
    (hctx : contextOf ctx = none) (h0 : getServiceUrlSize h ≠ 0)
    (hch : resolveChannel h ctx = some ci) (hsu : findServiceUrl h ci.id = "") :
    sendTryBody h tb ctx msgs = .ok { refusal := some .endpointNotFound } := by
  unfold sendTryBody
  dsimp only
  rw [hca, hctx, if_neg h0, hch]
  dsimp only
  rw [if_pos hsu]

lemma sendTryBody_eq_proactive (h : BotActivityHandler) (tb : TransportBehavior)
    (ctx : IChatContextData) (msgs : List IMessage) (act : Activity) (ci : ChannelRef)
    (hca : composeActivity (composeLoop h msgs).textMessage (composeLoop h msgs).attachments = some act)
    (hctx : contextOf ctx = none) (h0 : getServiceUrlSize h ≠ 0)
    (hch : resolveChannel h ctx = some ci) (hsu : findServiceUrl h ci.id ≠ "") :
    sendTryBody h tb ctx msgs =
      if tb.createFails then
        .error { trace := [.createConversation ci (findServiceUrl h ci.id)
          (firstActivity (composeLoop h msgs).textMessage (composeLoop h msgs).attachments
            (composeLoop h msgs).mentions)] }
      else
        .ok ⟨none, false,
          [.createConversation ci (findServiceUrl h ci.id)
            (firstActivity (composeLoop h msgs).textMessage (composeLoop h msgs).attachments
              (composeLoop h msgs).mentions),
           .resumeProactive tb.newConversationId (findServiceUrl h ci.id)
            (restActivity (composeLoop h msgs).textMessage (composeLoop h msgs).attachments
              (composeLoop h msgs).mentions)],
          tb.resumeProactiveFails⟩ := by
  unfold sendTryBody
  dsimp only
  rw [hca, hctx, if_neg h0, hch]
  dsimp only
  rw [if_neg hsu]

lemma sendTryBody_ok_refusal (h : BotActivityHandler) (tb : TransportBehavior)
    (ctx : IChatContextData) (msgs : List IMessage) (e : SendEffects) (r : DeliveryRefusal)
    (hok : sendTryBody h tb ctx msgs = .ok e) (hr : e.refusal = some r) :
    e = { refusal := some r } := by
  rcases hca : composeActivity (composeLoop h msgs).textMessage (composeLoop h msgs).attachments with _ | act
  · rw [sendTryBody_eq_empty h tb ctx msgs hca] at hok
    injection hok with hok
    subst hok
    simp_all
  · rcases hctx : contextOf ctx with _ | ref
    · by_cases h0 : getServiceUrlSize h = 0
      · rw [sendTryBody_eq_cacheEmpty h tb ctx msgs act hca hctx h0] at hok
        injection hok with hok
        subst hok
        simp_all
      · rcases hch : resolveChannel h ctx with _ | ci
        · rw [sendTryBody_eq_chanNotFound h tb ctx msgs act hca hctx h0 hch] at hok
          injection hok with hok
          subst hok
          simp_all
        · by_cases hsu : findServiceUrl h ci.id = ""
          · rw [sendTryBody_eq_epNotFound h tb ctx msgs act ci hca hctx h0 hch hsu] at hok
            injection hok with hok
            subst hok
            simp_all
          · rw [sendTryBody_eq_proactive h tb ctx msgs act ci hca hctx h0 hch hsu] at hok
            by_cases hcf : tb.createFails = true
            · rw [if_pos hcf] at hok
              exact absurd hok (by simp)
            · rw [if_neg hcf] at hok
              injection hok with hok
              subst hok
              simp_all
    · rw [sendTryBody_eq_turn h tb ctx msgs act ref hca hctx] at hok
      by_cases htf : tb.resumeTurnFails = true
      · rw [if_pos htf] at hok
        exact absurd hok (by simp)
      · rw [if_neg htf] at hok
        injection hok with hok
        subst hok
        simp_all

lemma sendTryBody_error_refusal (h : BotActivityHandler) (tb : TransportBehavior)
    (ctx : IChatContextData) (msgs : List IMessage) (e : SendEffects)
    (herr : sendTryBody h tb ctx msgs = .error e) : e.refusal = none := by
  rcases hca : composeActivity (composeLoop h msgs).textMessage (composeLoop h msgs).attachments with _ | act
  · rw [sendTryBody_eq_empty h tb ctx msgs hca] at herr
    exact absurd herr (by simp)
  · rcases hctx : contextOf ctx with _ | ref
    · by_cases h0 : getServiceUrlSize h = 0
      · rw [sendTryBody_eq_cacheEmpty h tb ctx msgs act hca hctx h0] at herr
        exact absurd herr (by simp)
      · rcases hch : resolveChannel h ctx with _ | ci
        · rw [sendTryBody_eq_chanNotFound h tb ctx msgs act hca hctx h0 hch] at herr
          exact absurd herr (by simp)
        · by_cases hsu : findServiceUrl h ci.id = ""
          · rw [sendTryBody_eq_epNotFound h tb ctx msgs act ci hca hctx h0 hch hsu] at herr
            exact absurd herr (by simp)
          · rw [sendTryBody_eq_proactive h tb ctx msgs act ci hca hctx h0 hch hsu] at herr
            by_cases hcf : tb.createFails = true
            · rw [if_pos hcf] at herr
              injection herr with herr
              subst herr
              rfl
            · rw [if_neg hcf] at herr
              exact absurd herr (by simp)
    · rw [sendTryBody_eq_turn h tb ctx msgs act ref hca hctx] at herr
      by_cases htf : tb.resumeTurnFails = true
      · rw [if_pos htf] at herr
        injection herr with herr
        subst herr
        rfl
      · rw [if_neg htf] at herr
        exact absurd herr (by simp)

/-! Claim theorems. -/

/-- C1: for a proactive send whose composed message has both non-empty
text and at least one attachment, or more than one attachment and no
text, the composer/router produce two delivery units — a first unit
(the text when non-empty, else the first attachment) carrying the
resolved mentions, and a rest unit carrying the remaining attachments
and the same mentions; a single attachment with no text is not split;
in particular two adaptive cards X, Y compose to a first unit holding
only card X and a rest unit holding only card Y. -/
theorem c1_proactive_split (t : String) (atts : List Attachment) (ms : List Mention)
    (hsplit : (t ≠ "" ∧ atts ≠ []) ∨ (t = "" ∧ 1 < atts.length)) :
    (firstActivity t atts ms =
      some (if t ≠ "" then { text := some t, entities := ms }
            else { attachments := atts.take 1, entities := ms })) ∧
    (restActivity t atts ms =
      some (if t ≠ "" then { attachments := atts, entities := ms }
            else { attachments := atts.tail, entities := ms })) ∧
    (∀ a : Attachment, restActivity "" [a] ms = none) ∧
    (∀ (h : BotActivityHandler) (X Y : String),
      firstActivity
          (composeLoop h [⟨.msteamsAdaptiveCard, X, []⟩, ⟨.msteamsAdaptiveCard, Y, []⟩]).textMessage
          (composeLoop h [⟨.msteamsAdaptiveCard, X, []⟩, ⟨.msteamsAdaptiveCard, Y, []⟩]).attachments
          (composeLoop h [⟨.msteamsAdaptiveCard, X, []⟩, ⟨.msteamsAdaptiveCard, Y, []⟩]).mentions =
        some { attachments := [adaptiveCard X] } ∧
      restActivity
          (composeLoop h [⟨.msteamsAdaptiveCard, X, []⟩, ⟨.msteamsAdaptiveCard, Y, []⟩]).textMessage
          (composeLoop h [⟨.msteamsAdaptiveCard, X, []⟩, ⟨.msteamsAdaptiveCard, Y, []⟩]).attachments
          (composeLoop h [⟨.msteamsAdaptiveCard, X, []⟩, ⟨.msteamsAdaptiveCard, Y, []⟩]).mentions =
        some { attachments := [adaptiveCard Y] }) := by
  refine ⟨?_, ?_, ?_, ?_⟩
  · rcases hsplit with ⟨ht, ha⟩ | ⟨ht, ha⟩
    · simp [firstActivity, ht]
    · subst ht
      rcases atts with _ | ⟨a, rest⟩
      · simp at ha
      · simp [firstActivity]
  · rcases hsplit with ⟨ht, ha⟩ | ⟨ht, ha⟩
    · have h0 : 0 < atts.length := List.length_pos.mpr ha
      simp [restActivity, ht, h0]
    · subst ht
      simp [restActivity, ha]
  · intro a
    rfl
  · intro h X Y
    exact ⟨rfl, rfl⟩

/-- Witness for C1 at the two-card input of the specification's
proactive-split example. -/
theorem c1_proactive_split_witness :
    firstActivity "" [⟨"X"⟩, ⟨"Y"⟩] [] = some { attachments := [⟨"X"⟩] } ∧
    restActivity "" [⟨"X"⟩, ⟨"Y"⟩] [] = some { attachments := [⟨"Y"⟩] } := by
  have hs := c1_proactive_split "" [⟨"X"⟩, ⟨"Y"⟩] [] (Or.inr ⟨rfl, by decide⟩)
  refine ⟨?_, ?_⟩
  · rw [hs.1]
    decide
  · rw [hs.2.1]
    decide

/-- C2: every proactive send (no live turn context) with something to
deliver, issued while the Delivery Endpoint Cache is empty, is refused
with the endpoint-cache-empty error and makes zero transport calls. -/
theorem c2_endpoint_cache_empty (h : BotActivityHandler) (tb : TransportBehavior)
    (ctx : IChatContextData) (msgs : List IMessage)
    (hctx : contextOf ctx = none) (hempty : h.serviceUrls = [])
    (hunit : composeActivity (composeLoop h msgs).textMessage (composeLoop h msgs).attachments ≠ none) :
    send h tb ctx msgs = ⟨{ refusal := some .endpointCacheEmpty }, false⟩ := by
  rcases hca : composeActivity (composeLoop h msgs).textMessage (composeLoop h msgs).attachments with _ | act
  · exact absurd hca hunit
  · have h0 : getServiceUrlSize h = 0 := by simp [getServiceUrlSize, hempty]
    unfold send
    rw [sendTryBody_eq_cacheEmpty h tb ctx msgs act hca hctx h0]

/-- Witness for C2: a proactive text send against an empty endpoint
cache. -/
theorem c2_endpoint_cache_empty_witness :
    send ⟨[⟨"C1", "ops"⟩], []⟩ ⟨false, false, false, "conv1"⟩ ⟨none, ⟨"C1", "ops"⟩⟩
        [⟨.plainText, "hi", []⟩] =
      ⟨{ refusal := some .endpointCacheEmpty }, false⟩ :=
  c2_endpoint_cache_empty _ _ _ _ rfl rfl (by decide)

/-- C3: in a proactive send with a non-empty endpoint cache, the target
channel is resolved via the directory by name when its id is empty and
its name non-empty, otherwise by id; a failed resolution is refused as
channel-not-found, and a missing endpoint for the resolved channel id
as endpoint-not-found — in both cases with no transport call. -/
theorem c3_proactive_resolution_refusals (h : BotActivityHandler) (tb : TransportBehavior)
    (ctx : IChatContextData) (msgs : List IMessage)
    (hctx : contextOf ctx = none) (hne : getServiceUrlSize h ≠ 0)
    (hunit : composeActivity (composeLoop h msgs).textMessage (composeLoop h msgs).attachments ≠ none) :
    (resolveChannel h ctx =
      (if ctx.channel.id = "" ∧ ctx.channel.name ≠ "" then findChannelByName h ctx.channel.name
       else findChannelById h ctx.channel.id)) ∧
    (resolveChannel h ctx = none →
      send h tb ctx msgs = ⟨{ refusal := some .channelNotFound }, false⟩) ∧
    (∀ ci, resolveChannel h ctx = some ci → findServiceUrl h ci.id = "" →
      send h tb ctx msgs = ⟨{ refusal := some .endpointNotFound }, false⟩) := by
  rcases hca : composeActivity (composeLoop h msgs).textMessage (composeLoop h msgs).attachments with _ | act
  · exact absurd hca hunit
  · refine ⟨rfl, ?_, ?_⟩
    · intro hch
      unfold send
      rw [sendTryBody_eq_chanNotFound h tb ctx msgs act hca hctx hne hch]
    · intro ci hch hsu
      unfold send
      rw [sendTryBody_eq_epNotFound h tb ctx msgs act ci hca hctx hne hch hsu]

/-- Witness for C3: an unknown channel id is refused as
channel-not-found, and a known channel without a cached endpoint as
endpoint-not-found. -/
theorem c3_proactive_resolution_refusals_witness :
    send ⟨[⟨"C1", "ops"⟩, ⟨"C2", "dev"⟩], [("C1", "https://svc/a")]⟩ ⟨false, false, false, "conv1"⟩
        ⟨none, ⟨"C9", ""⟩⟩ [⟨.plainText, "hi", []⟩] =
      ⟨{ refusal := some .channelNotFound }, false⟩ ∧
    send ⟨[⟨"C1", "ops"⟩, ⟨"C2", "dev"⟩], [("C1", "https://svc/a")]⟩ ⟨false, false, false, "conv1"⟩
        ⟨none, ⟨"", "dev"⟩⟩ [⟨.plainText, "hi", []⟩] =
      ⟨{ refusal := some .endpointNotFound }, false⟩ := by
  constructor
  · exact (c3_proactive_resolution_refusals ⟨[⟨"C1", "ops"⟩, ⟨"C2", "dev"⟩], [("C1", "https://svc/a")]⟩
      ⟨false, false, false, "conv1"⟩ ⟨none, ⟨"C9", ""⟩⟩ [⟨.plainText, "hi", []⟩]
      rfl (by decide) (by decide)).2.1 rfl
  · exact (c3_proactive_resolution_refusals ⟨[⟨"C1", "ops"⟩, ⟨"C2", "dev"⟩], [("C1", "https://svc/a")]⟩
      ⟨false, false, false, "conv1"⟩ ⟨none, ⟨"", "dev"⟩⟩ [⟨.plainText, "hi", []⟩]
      rfl (by decide) (by decide)).2.2 ⟨"C2", "dev"⟩ rfl rfl

/-- Counterexample to C4: for the mention `{id:" ", name:"general"}`
(whitespace-only id) against a directory containing `{id:"C1",
name:"general"}`, the code trims before choosing the lookup and fills
the id from the name lookup, while the claimed rule (untrimmed
emptiness) applies neither of its two fills and keeps the mention
unchanged — the composed mention set therefore differs from the
claimed one at this input. -/
theorem c4_mention_resolution_counterexample :
    resolveMention ⟨[⟨"C1", "general"⟩], []⟩ ⟨⟨" ", "general"⟩⟩ = ⟨⟨"C1", "general"⟩⟩ ∧
    resolveMentionClaim ⟨[⟨"C1", "general"⟩], []⟩ ⟨⟨" ", "general"⟩⟩ = ⟨⟨" ", "general"⟩⟩ ∧
    resolveMention ⟨[⟨"C1", "general"⟩], []⟩ ⟨⟨" ", "general"⟩⟩ ≠
      resolveMentionClaim ⟨[⟨"C1", "general"⟩], []⟩ ⟨⟨" ", "general"⟩⟩ ∧
    (composeLoop ⟨[⟨"C1", "general"⟩], []⟩
        [⟨.plainText, "hi", [⟨⟨" ", "general"⟩⟩]⟩]).mentions = [⟨⟨"C1", "general"⟩⟩] := by
  decide

/-- C4 amended: the branch choice tests emptiness on the trimmed
strings — when the id is blank after trimming and the name is not, the
id is filled from a directory lookup by name (when one succeeds), and
otherwise the name is filled from a lookup by id (when one succeeds);
the mention is included in the composed mention set only if both id
and name are literally non-empty afterwards (every member of the set
satisfies that), and is otherwise dropped silently. -/
theorem c4_mention_resolution_amended (h : BotActivityHandler) (m : Mention)
    (msgs : List IMessage) :
    (jsTrim m.mentioned.id = "" ∧ jsTrim m.mentioned.name ≠ "" →
      resolveMention h m = (match findChannelByName h m.mentioned.name with
        | some ci => ⟨⟨ci.id, m.mentioned.name⟩⟩
        | none => m)) ∧
    (¬(jsTrim m.mentioned.id = "" ∧ jsTrim m.mentioned.name ≠ "") →
      resolveMention h m = (match findChannelById h m.mentioned.id with
        | some ci => ⟨⟨m.mentioned.id, ci.name⟩⟩
        | none => m)) ∧
    (includeMention (resolveMention h m) = true ↔
      (resolveMention h m).mentioned.id ≠ "" ∧ (resolveMention h m).mentioned.name ≠ "") ∧
    (∀ m2 ∈ (composeLoop h msgs).mentions, m2.mentioned.id ≠ "" ∧ m2.mentioned.name ≠ "") := by
  refine ⟨?_, ?_, ?_, ?_⟩
  · intro hc
    unfold resolveMention
    rw [if_pos hc]
  · intro hc
    unfold resolveMention
    rw [if_neg hc]
  · simp [includeMention]
  · intro m2 hm2
    rcases mem_foldl_composeStep_mentions msgs ⟨h, "", [], [], []⟩ m2 hm2 with h1 | h1
    · simp at h1
    · simpa [includeMention] using h1

/-- Witness for C4 amended at the specification's own directory
examples: `{id:"", name:"general"}` resolves to `{id:"C1",
name:"general"}`, while `{id:"C9", name:""}` with no matching entry
stays unresolved and is dropped. -/
theorem c4_mention_resolution_amended_witness :
    resolveMention ⟨[⟨"C1", "general"⟩], []⟩ ⟨⟨"", "general"⟩⟩ = ⟨⟨"C1", "general"⟩⟩ ∧
    resolveMention ⟨[⟨"C1", "general"⟩], []⟩ ⟨⟨"C9", ""⟩⟩ = ⟨⟨"C9", ""⟩⟩ ∧
    includeMention ⟨⟨"C9", ""⟩⟩ = false := by
  refine ⟨?_, ?_, by decide⟩
  · have h1 := (c4_mention_resolution_amended ⟨[⟨"C1", "general"⟩], []⟩
      ⟨⟨"", "general"⟩⟩ []).1 (by decide)
    rw [h1]
    decide
  · have h2 := (c4_mention_resolution_amended ⟨[⟨"C1", "general"⟩], []⟩
      ⟨⟨"C9", ""⟩⟩ []).2.1 (by decide)
    rw [h2]
    decide

/-- C5: unit construction is by cases on the accumulated text and
attachments — text only gives one text unit, attachments only one
attachment unit, both give one combined unit, and neither gives an
empty result that send treats as a warned no-op making no delivery
call. -/
theorem c5_unit_construction (t : String) (atts : List Attachment)
    (h : BotActivityHandler) (tb : TransportBehavior) (ctx : IChatContextData)
    (msgs : List IMessage) :
    (t ≠ "" → atts = [] → composeActivity t atts = some { text := some t }) ∧
    (t = "" → atts ≠ [] → composeActivity t atts = some { attachments := atts }) ∧
    (t ≠ "" → atts ≠ [] → composeActivity t atts = some { text := some t, attachments := atts }) ∧
    (t = "" → atts = [] → composeActivity t atts = none) ∧
    (composeActivity (composeLoop h msgs).textMessage (composeLoop h msgs).attachments = none →
      send h tb ctx msgs = ⟨{ emptyWarned := true }, false⟩) := by
  refine ⟨?_, ?_, ?_, ?_, ?_⟩
  · intro ht ha
    unfold composeActivity
    rw [if_pos ⟨ht, ha⟩]
  · intro ht ha
    unfold composeActivity
    rw [if_neg (by simp [ht]), if_pos ⟨ht, ha⟩]
  · intro ht ha
    unfold composeActivity
    rw [if_neg (by simp [ha]), if_neg (by simp [ht]), if_pos ⟨ht, ha⟩]
  · intro ht ha
    unfold composeActivity
    rw [if_neg (by simp [ht]), if_neg (by simp [ha]), if_neg (by simp [ht])]
  · intro hca
    unfold send
    rw [sendTryBody_eq_empty h tb ctx msgs hca]

/-- Witness for C5 covering all four construction cases and the no-op
behaviour of send on an empty composition. -/
theorem c5_unit_construction_witness :
    composeActivity "x" [] = some { text := some "x" } ∧
    composeActivity "" [⟨"A"⟩] = some { attachments := [⟨"A"⟩] } ∧
    composeActivity "x" [⟨"A"⟩] = some { text := some "x", attachments := [⟨"A"⟩] } ∧
    composeActivity "" [] = none ∧
    send ⟨[], []⟩ ⟨false, false, false, "conv1"⟩ ⟨none, ⟨"", ""⟩⟩ [] =
      ⟨{ emptyWarned := true }, false⟩ := by
  refine ⟨?_, ?_, ?_, ?_, ?_⟩
  · exact (c5_unit_construction "x" [] ⟨[], []⟩ ⟨false, false, false, "conv1"⟩
      ⟨none, ⟨"", ""⟩⟩ []).1 (by decide) rfl
  · exact (c5_unit_construction "" [⟨"A"⟩] ⟨[], []⟩ ⟨false, false, false, "conv1"⟩
      ⟨none, ⟨"", ""⟩⟩ []).2.1 rfl (by decide)
  · exact (c5_unit_construction "x" [⟨"A"⟩] ⟨[], []⟩ ⟨false, false, false, "conv1"⟩
      ⟨none, ⟨"", ""⟩⟩ []).2.2.1 (by decide) (by decide)
  · exact (c5_unit_construction "" [] ⟨[], []⟩ ⟨false, false, false, "conv1"⟩
      ⟨none, ⟨"", ""⟩⟩ []).2.2.2.1 rfl rfl
  · exact (c5_unit_construction "" [] ⟨[], []⟩ ⟨false, false, false, "conv1"⟩
      ⟨none, ⟨"", ""⟩⟩ []).2.2.2.2 rfl

/-- Counterexample to C6: composing `[PlainText "a", PlainText "b"]`
yields `"\na\nb"` — every part is appended preceded by a newline, so
the composed text carries a leading newline and is not the claimed
`"a\nb"`. -/
theorem c6_text_join_counterexample :
    (composeLoop ⟨[], []⟩ [⟨.plainText, "a", []⟩, ⟨.plainText, "b", []⟩]).textMessage = "\na\nb" ∧
    (composeLoop ⟨[], []⟩ [⟨.plainText, "a", []⟩, ⟨.plainText, "b", []⟩]).textMessage ≠ "a\nb" := by
  decide

/-- C6 amended: all PlainText parts are accumulated in order, each
appended to the accumulated text preceded by a newline, so the result
starts with a newline — `[PlainText "a", PlainText "b"]` composes to
`"\na\nb"` as a pure function of the input — and an unsupported part
has its serialized payload appended to the text in the same way rather
than being dropped (adaptive cards leave the text untouched). -/
theorem c6_text_accumulation (h : BotActivityHandler) (msgs : List IMessage)
    (s payload tag : String) (ml : List Mention) :
    ((composeLoop h [⟨.plainText, "a", []⟩, ⟨.plainText, "b", []⟩]).textMessage = "\na\nb") ∧
    ((composeLoop h (msgs ++ [⟨.plainText, s, ml⟩])).textMessage =
      (composeLoop h msgs).textMessage ++ "\n" ++ s) ∧
    ((composeLoop h (msgs ++ [⟨.other tag, payload, ml⟩])).textMessage =
      (composeLoop h msgs).textMessage ++ "\n" ++ serializePayload payload) ∧
    ((composeLoop h (msgs ++ [⟨.msteamsAdaptiveCard, payload, ml⟩])).textMessage =
      (composeLoop h msgs).textMessage) := by
  refine ⟨rfl, ?_, ?_, ?_⟩ <;>
    simp [composeLoop, List.foldl_append, composeStep_textMessage]

/-- C7 records a code bug: the source always issues the follow-up
`continueConversation` after `createConversation` (lines 278-280 are
not guarded by a null check on `restActivity`), so a pure-text
proactive send — whose rest unit is `none` — still produces a second
transport call, pushing a null activity, where the specification
(section 4.4 step 5) makes the second call conditional on a rest unit
existing.  This theorem evaluates the embedded code at such a failing
input: the rest unit is none, yet the trace holds two transport calls,
the second carrying no activity. -/
theorem c7_unconditional_second_call :
    restActivity
        (composeLoop ⟨[⟨"C1", "ops"⟩], [("C1", "https://svc/a")]⟩ [⟨.plainText, "hi", []⟩]).textMessage
        (composeLoop ⟨[⟨"C1", "ops"⟩], [("C1", "https://svc/a")]⟩ [⟨.plainText, "hi", []⟩]).attachments
        (composeLoop ⟨[⟨"C1", "ops"⟩], [("C1", "https://svc/a")]⟩ [⟨.plainText, "hi", []⟩]).mentions =
      none ∧
    (send ⟨[⟨"C1", "ops"⟩], [("C1", "https://svc/a")]⟩ ⟨false, false, false, "conv1"⟩
        ⟨none, ⟨"C1", "ops"⟩⟩ [⟨.plainText, "hi", []⟩]).effects.trace =
      [.createConversation ⟨"C1", "ops"⟩ "https://svc/a"
         (some { text := some "\nhi", entities := [] }),
       .resumeProactive "conv1" "https://svc/a" none] := by
  decide

/-- Counterexample to C8: a refused send (here endpoint-cache-empty)
is reported only through logging — the caller receives the same normal
void completion as any other send, never an error result. -/
theorem c8_refusal_not_returned_counterexample :
    (send ⟨[⟨"C1", "ops"⟩], []⟩ ⟨false, false, false, "conv1"⟩ ⟨none, ⟨"C1", "ops"⟩⟩
        [⟨.plainText, "hi", []⟩]).effects.refusal = some .endpointCacheEmpty ∧
    sendCallerOutcome ⟨[⟨"C1", "ops"⟩], []⟩ ⟨false, false, false, "conv1"⟩ ⟨none, ⟨"C1", "ops"⟩⟩
        [⟨.plainText, "hi", []⟩] = Except.ok () ∧
    sendCallerOutcome ⟨[⟨"C1", "ops"⟩], []⟩ ⟨false, false, false, "conv1"⟩ ⟨none, ⟨"C1", "ops"⟩⟩
        [⟨.plainText, "hi", []⟩] ≠ Except.error DeliveryRefusal.endpointCacheEmpty :=
  ⟨rfl, rfl, fun hc => Except.noConfusion hc⟩

/-- C8 amended: each of the three refusals is terminal for that send —
no retry and no transport call, and the refusal is logged — but it is
reported only through logging: the send completes normally, returning
void to the caller rather than an error result. -/
theorem c8_refusals_terminal (h : BotActivityHandler) (tb : TransportBehavior)
    (ctx : IChatContextData) (msgs : List IMessage) (r : DeliveryRefusal)
    (hr : (send h tb ctx msgs).effects.refusal = some r) :
    send h tb ctx msgs = ⟨{ refusal := some r }, false⟩ ∧
    (send h tb ctx msgs).effects.trace = [] ∧
    sendCallerOutcome h tb ctx msgs = Except.ok () := by
  have hmain : send h tb ctx msgs = ⟨{ refusal := some r }, false⟩ := by
    unfold send at hr ⊢
    rcases hbody : sendTryBody h tb ctx msgs with e | e
    · rw [hbody] at hr
      have hnone := sendTryBody_error_refusal h tb ctx msgs e hbody
      simp [hnone] at hr
    · rw [hbody] at hr
      have he : e.refusal = some r := by simpa using hr
      have heq := sendTryBody_ok_refusal h tb ctx msgs e r hbody he
      simp [heq]
  exact ⟨hmain, by rw [hmain], sendCallerOutcome_ok h tb ctx msgs⟩

/-- Witness for C8 amended at a concrete empty-cache refusal. -/
theorem c8_refusals_terminal_witness :
    send ⟨[], []⟩ ⟨false, false, false, "conv1"⟩ ⟨none, ⟨"C9", ""⟩⟩ [⟨.plainText, "hi", []⟩] =
      ⟨{ refusal := some .endpointCacheEmpty }, false⟩ ∧
    sendCallerOutcome ⟨[], []⟩ ⟨false, false, false, "conv1"⟩ ⟨none, ⟨"C9", ""⟩⟩
        [⟨.plainText, "hi", []⟩] = Except.ok () := by
  have hw := c8_refusals_terminal ⟨[], []⟩ ⟨false, false, false, "conv1"⟩ ⟨none, ⟨"C9", ""⟩⟩
    [⟨.plainText, "hi", []⟩] .endpointCacheEmpty rfl
  exact ⟨hw.1, hw.2.2⟩

/-- Counterexample to C9: composition mutates the caller's mention
objects — after the loop, the caller's message holds the filled
mention `{id:"C1", name:"general"}` instead of the original `{id:"",
name:"general"}` it was called with. -/
theorem c9_mention_mutation_counterexample :
    (composeLoop ⟨[⟨"C1", "general"⟩], []⟩
        [⟨.plainText, "hi", [⟨⟨"", "general"⟩⟩]⟩]).postMessages =
      [⟨.plainText, "hi", [⟨⟨"C1", "general"⟩⟩]⟩] ∧
    (composeLoop ⟨[⟨"C1", "general"⟩], []⟩
        [⟨.plainText, "hi", [⟨⟨"", "general"⟩⟩]⟩]).postMessages ≠
      [⟨.plainText, "hi", [⟨⟨"", "general"⟩⟩]⟩] := by
  decide

/-- C9 amended: composition is deterministic and performs no writes to
the Channel Directory or the Endpoint Cache (the handler state comes
out of the loop unchanged), and it leaves every message's type and
payload unchanged; but it mutates the caller's mention objects in
place, replacing each by its resolved form. -/
theorem c9_composition_frame (h : BotActivityHandler) (msgs : List IMessage) :
    (composeLoop h msgs).handler = h ∧
    (composeLoop h msgs).postMessages =
      msgs.map (fun msg => { msg with mentions := msg.mentions.map (resolveMention h) }) ∧
    (composeLoop h msgs).postMessages.map (fun msg => (msg.type, msg.message)) =
      msgs.map (fun msg => (msg.type, msg.message)) := by
  have hpost : (composeLoop h msgs).postMessages =
      msgs.map (fun msg => { msg with mentions := msg.mentions.map (resolveMention h) }) := by
    simpa [composeLoop] using foldl_composeStep_postMessages msgs ⟨h, "", [], [], []⟩
  refine ⟨foldl_composeStep_handler msgs ⟨h, "", [], [], []⟩, hpost, ?_⟩
  rw [hpost]
  simp [List.map_map, Function.comp]

/-- Counterexample to C10: when the fire-and-forget follow-up
resumption fails, an error is raised inside send by a resumption
transport call, yet the catch block does not run — the error is
neither caught nor logged by send, which still completes normally. -/
theorem c10_detached_error_counterexample :
    (send ⟨[⟨"C1", "ops"⟩], [("C1", "https://svc/a")]⟩ ⟨false, false, true, "conv1"⟩
        ⟨none, ⟨"C1", "ops"⟩⟩ [⟨.plainText, "hi", []⟩]).effects.detachedResumeError = true ∧
    (send ⟨[⟨"C1", "ops"⟩], [("C1", "https://svc/a")]⟩ ⟨false, false, true, "conv1"⟩
        ⟨none, ⟨"C1", "ops"⟩⟩ [⟨.plainText, "hi", []⟩]).catchLogged = false ∧
    sendCallerOutcome ⟨[⟨"C1", "ops"⟩], [("C1", "https://svc/a")]⟩ ⟨false, false, true, "conv1"⟩
        ⟨none, ⟨"C1", "ops"⟩⟩ [⟨.plainText, "hi", []⟩] = Except.ok () :=
  ⟨rfl, rfl, rfl⟩

/-- C10 amended: send never throws and its promise never rejects — the
caller always observes a normal void completion, and every error that
escapes the try block (conversation creation or the awaited
conversational resumption) is caught and logged by the catch block;
the proactive follow-up resumption, however, is fired without
awaiting, so its failure neither rejects send nor reaches the catch;
processTurnError likewise always logs the turn error and returns
normally, catching failures of its own activity sends. -/
theorem c10_error_containment (h : BotActivityHandler) (tb : TransportBehavior)
    (ctx : IChatContextData) (msgs : List IMessage) (teb : TurnErrorBehavior) :
    sendCallerOutcome h tb ctx msgs = Except.ok () ∧
    (∀ e, sendTryBody h tb ctx msgs = Except.error e → send h tb ctx msgs = ⟨e, true⟩) ∧
    (processTurnError teb).errorLogged = true := by
  refine ⟨sendCallerOutcome_ok h tb ctx msgs, ?_, ?_⟩
  · intro e he
    unfold send
    rw [he]
  · rcases teb with ⟨a, b⟩
    cases a <;> cases b <;> rfl

/-- Witness for C10 amended: a failing conversation creation is caught
and logged by the catch block, and send still returns normally. -/
theorem c10_error_containment_witness :
    send ⟨[⟨"C1", "ops"⟩], [("C1", "https://svc/a")]⟩ ⟨false, true, false, "conv1"⟩
        ⟨none, ⟨"C1", "ops"⟩⟩ [⟨.plainText, "hi", []⟩] =
      ⟨{ trace := [.createConversation ⟨"C1", "ops"⟩ "https://svc/a"
          (some { text := some "\nhi", entities := [] })] }, true⟩ ∧
    sendCallerOutcome ⟨[⟨"C1", "ops"⟩], [("C1", "https://svc/a")]⟩ ⟨false, true, false, "conv1"⟩
        ⟨none, ⟨"C1", "ops"⟩⟩ [⟨.plainText, "hi", []⟩] = Except.ok () := by
  have hw := c10_error_containment ⟨[⟨"C1", "ops"⟩], [("C1", "https://svc/a")]⟩
    ⟨false, true, false, "conv1"⟩ ⟨none, ⟨"C1", "ops"⟩⟩ [⟨.plainText, "hi", []⟩] ⟨false, false⟩
  refine ⟨?_, hw.1⟩
  exact hw.2.1 { trace := [.createConversation ⟨"C1", "ops"⟩ "https://svc/a"
    (some { text := some "\nhi", entities := [] })] } rfl

end ZoweChat
